import Mathlib

/-!
Verification of the desktop screen-duplication controller
(source/desktop/win/dxgi_duplicator_controller.cc).

The controller and its pure arithmetic (rect aggregation, monitor-id
resolution, frame-count minimum, result taxonomy) are embedded as Lean
functions over explicit state.  External collaborators (the per-adapter
duplicator, the device enumerator, the display-change probe, the session
probe, the frame object, clocks) are modelled as environment inputs: each
call of the controller receives the outcomes the collaborators would
produce.  Machine int64 values are modelled as Int; the only point where
the width matters is the INT64_MAX seed of numFramesCaptured, kept as the
literal 9223372036854775807.
-/

set_option linter.unusedVariables false

namespace Aspia

/-- Qt QPoint: a 2D integer point. -/
structure QPoint where
  x : Int
  y : Int
deriving DecidableEq, Repr

/-- Qt QSize: a 2D integer size. -/
structure QSize where
  w : Int
  h : Int
deriving DecidableEq, Repr

/-- Qt QRect, kept in (x, y, w, h) form. -/
structure QRect where
  x : Int
  y : Int
  w : Int
  h : Int
deriving DecidableEq, Repr

namespace QRect

/-- QRect::isNull: both width and height are zero. -/
def isNull (r : QRect) : Bool := r.w == 0 && r.h == 0

/-- QRect::isEmpty: width or height is not positive. -/
def isEmptyRect (r : QRect) : Bool := r.w ≤ 0 || r.h ≤ 0

/-- QRect::topLeft. -/
def topLeft (r : QRect) : QPoint := ⟨r.x, r.y⟩

/-- QRect::size. -/
def size (r : QRect) : QSize := ⟨r.w, r.h⟩

/-- QRect::translate: shift the origin, keep the size. -/
def translate (r : QRect) (p : QPoint) : QRect := ⟨r.x + p.x, r.y + p.y, r.w, r.h⟩

/-- QRect::united (operator|): bounding box of the two rectangles, where a
null rectangle is the identity, as in Qt. -/
def united (a b : QRect) : QRect :=
  if a.isNull then b
  else if b.isNull then a
  else
    let l := min a.x b.x
    let t := min a.y b.y
    let rr := max (a.x + a.w) (b.x + b.w)
    let bb := max (a.y + a.h) (b.y + b.h)
    ⟨l, t, rr - l, bb - t⟩

end QRect

/-- Union of a list of rectangles, folded from the default-constructed
QRect() exactly as desktop_rect_ is accumulated during initialization. -/
def unionRects (l : List QRect) : QRect := l.foldl QRect.united ⟨0, 0, 0, 0⟩

/-- Modelled from the spec: the DisplayChangeProbe
(DisplayConfigurationMonitor, whose source is not under src/) keeps an
optional snapshot of the display configuration; isChanged compares the
current configuration with the snapshot and stores the new one, returning
false on the first call after reset; reset clears the snapshot. -/
structure DisplayConfigurationMonitor where
  snapshot : Option QRect
deriving DecidableEq, Repr

namespace DisplayConfigurationMonitor

/-- reset(): clears the stored snapshot. -/
def reset (_m : DisplayConfigurationMonitor) : DisplayConfigurationMonitor := ⟨none⟩

/-- isChanged(): compares the current configuration against the snapshot,
then stores the current configuration. -/
def isChanged (m : DisplayConfigurationMonitor) (current : QRect) :
    Bool × DisplayConfigurationMonitor :=
  match m.snapshot with
  | none => (false, ⟨some current⟩)
  | some r => (decide (r ≠ current), ⟨some current⟩)

end DisplayConfigurationMonitor

/-- Modelled from the spec: the AdapterDuplicator collaborator
(DxgiAdapterDuplicator, whose source is not under src/).  It owns its
monitors' rectangles in virtual-desktop coordinates, per-monitor device
names, the count of frames it has captured, and the set of per-caller
sub-contexts registered with it.  A sub-context handle is modelled as the
pair (caller context identity, adapter index), standing for the address
&context->contexts[i] used by the source. -/
structure DxgiAdapterDuplicator where
  desktop_rect : QRect
  screen_rects : List QRect
  device_names : List String
  num_frames_captured : Int
  registered : List (Nat × Nat)
deriving DecidableEq, Repr

namespace DxgiAdapterDuplicator

/-- screenCount(): number of monitors on this adapter. -/
def screenCount (d : DxgiAdapterDuplicator) : Int := Int.ofNat d.screen_rects.length

/-- screenRect(i): rectangle of the i-th monitor of this adapter. -/
def screenRect (d : DxgiAdapterDuplicator) (i : Int) : QRect :=
  d.screen_rects.getD i.toNat ⟨0, 0, 0, 0⟩

/-- deviceName(i). -/
def deviceName (d : DxgiAdapterDuplicator) (i : Int) : String :=
  d.device_names.getD i.toNat ""

/-- translateRect(position): shifts the adapter's desktop rectangle and all
its monitor rectangles by the given offset. -/
def translateRect (d : DxgiAdapterDuplicator) (p : QPoint) : DxgiAdapterDuplicator :=
  { d with desktop_rect := d.desktop_rect.translate p,
           screen_rects := d.screen_rects.map (fun r => r.translate p) }

/-- setup(sub_context): registers a caller sub-context with this adapter. -/
def setup (d : DxgiAdapterDuplicator) (h : Nat × Nat) : DxgiAdapterDuplicator :=
  { d with registered := d.registered ++ [h] }

/-- unregister(sub_context): removes a caller sub-context from this
adapter. -/
def unregister (d : DxgiAdapterDuplicator) (h : Nat × Nat) : DxgiAdapterDuplicator :=
  { d with registered := d.registered.erase h }

end DxgiAdapterDuplicator

/-- DxgiDuplicatorController::Context: the per-caller handle.  `cid` models
the object identity (address) of the caller's context, `controller_id` the
identity value recorded at the last setup, and `sub_context_count` the size
of its contexts vector. -/
structure Context where
  cid : Nat
  controller_id : Int
  sub_context_count : Nat
deriving DecidableEq, Repr

/-- Modelled from the spec: the SharedFrame / Frame collaborator.  Pixel
contents are not modelled; the frame carries its size, its top-left point
and its updated region (a list of rectangles standing for QRegion). -/
structure SharedFrame where
  size : QSize
  top_left : QPoint
  updated_region : List QRect
deriving DecidableEq, Repr

/-- Modelled from the spec: DxgiFrame, the caller's frame carrying its
Context and the underlying SharedFrame. -/
structure DxgiFrame where
  context : Context
  frame : SharedFrame
deriving DecidableEq, Repr

/-- D3dInfo: smallest and largest GPU feature level observed. -/
structure D3dInfo where
  min_feature_level : Int
  max_feature_level : Int
deriving DecidableEq, Repr

/-- Modelled from the spec: one enumerated D3dDevice together with the
behaviour the external DxgiAdapterDuplicator built on it would have:
whether its initialize() succeeds, and the adapter state when it does. -/
structure D3dDevice where
  feature_level : Int
  init_ok : Bool
  adapter : DxgiAdapterDuplicator
deriving DecidableEq, Repr

/-- Environment of one initialization attempt: the enumerated devices and
the outcome of the GetDC DPI query (none models a failed query). -/
structure InitEnv where
  devices : List D3dDevice
  dpi_query : Option QPoint
deriving DecidableEq, Repr

/-- Outcome of one adapter-level duplicate / duplicateMonitor call:
whether it succeeds and by how much the adapter's captured-frame count
advances on success. -/
structure AdapterCallResult where
  ok : Bool
  frames_inc : Int
deriving DecidableEq, Repr

/-- Environment of one warm-up loop iteration: the per-adapter outcomes of
the doDuplicateAll pass and the clock reading (milliseconds since the
start of the warm-up) taken right after it.  The inter-frame sleep has no
semantic effect in the embedding; time advances only through these
readings. -/
structure WarmupIter where
  calls : List AdapterCallResult
  elapsed_after : Int
deriving DecidableEq, Repr

/-- Environment of one doDuplicate call: the display configuration the
probe observes, the session probe's verdict, the initialization
environment, the frame's prepare outcome as a function of the requested
size and monitor id, the warm-up iterations, and the outcomes of the final
dispatch. -/
structure DupEnv where
  current_screen_rect : QRect
  session_ok : Bool
  init : InitEnv
  prepare : QSize → Int → Bool
  warmup : List WarmupIter
  final_all : List AdapterCallResult
  final_one : AdapterCallResult

/-- One adapter-level duplication operation performed during a call:
either a full-region duplicate on adapter i, or a per-monitor duplicate of
intra-adapter monitor `intra` on adapter i. -/
inductive DupOp where
  | dupFull (adapter : Nat)
  | dupMon (adapter : Nat) (intra : Int)
deriving DecidableEq, Repr

/-- DxgiDuplicatorController::Result. -/
inductive Result where
  | SUCCEEDED
  | UNSUPPORTED_SESSION
  | FRAME_PREPARE_FAILED
  | INITIALIZATION_FAILED
  | DUPLICATION_FAILED
  | INVALID_MONITOR_ID
deriving DecidableEq, Repr

/-- The controller's state: the aggregated desktop rectangle, the ordered
adapter duplicators, the identity counter, the count of successful
duplications, the DPI snapshot, the observed feature levels, and the
display-change probe. -/
structure DxgiDuplicatorController where
  desktop_rect : QRect
  duplicators : List DxgiAdapterDuplicator
  identity : Int
  succeeded_duplications : Int
  dpi : QPoint
  d3d_info : D3dInfo
  display_configuration_monitor : DisplayConfigurationMonitor
deriving DecidableEq, Repr

namespace DxgiDuplicatorController

/-- screenCountUnlocked(): sum of the adapters' monitor counts. -/
def screenCountUnlocked (s : DxgiDuplicatorController) : Int :=
  s.duplicators.foldl (fun acc d => acc + d.screenCount) 0

/-- numFramesCaptured(): minimum captured-frame count across adapters,
seeded with INT64_MAX. -/
def numFramesCaptured (s : DxgiDuplicatorController) : Int :=
  s.duplicators.foldl (fun m d => min m d.num_frames_captured) 9223372036854775807

/-- desktopSize(). -/
def desktopSize (s : DxgiDuplicatorController) : QSize := s.desktop_rect.size

/-- The walk of screenRect(id): subtract each adapter's monitor count until
the id falls inside an adapter, else return QRect(). -/
def screenRectWalk : List DxgiAdapterDuplicator → Int → QRect
  | [], _ => ⟨0, 0, 0, 0⟩
  | d :: ds, id =>
    if id ≥ d.screenCount then screenRectWalk ds (id - d.screenCount)
    else d.screenRect id

/-- screenRect(id). -/
def screenRect (s : DxgiDuplicatorController) (id : Int) : QRect :=
  screenRectWalk s.duplicators id

/-- selectedDesktopSize(monitor_id): the full desktop size for a negative
id, else the selected monitor's size. -/
def selectedDesktopSize (s : DxgiDuplicatorController) (monitor_id : Int) : QSize :=
  if monitor_id < 0 then s.desktopSize else (s.screenRect monitor_id).size

/-- deinitialize() in the source: clears the desktop rectangle and the
adapters and resets the display-change probe, touching nothing else. -/
def deinitialise (s : DxgiDuplicatorController) : DxgiDuplicatorController :=
  { s with desktop_rect := ⟨0, 0, 0, 0⟩,
           duplicators := [],
           display_configuration_monitor := s.display_configuration_monitor.reset }

/-- contextExpired(context). -/
def contextExpired (s : DxgiDuplicatorController) (context : Context) : Bool :=
  decide (context.controller_id ≠ s.identity) ||
    decide (context.sub_context_count ≠ s.duplicators.length)

/-- Registration pass of setup(context): adapter i records the caller's
i-th sub-context. -/
def setupGo (cid : Nat) : Nat → List DxgiAdapterDuplicator → List DxgiAdapterDuplicator
  | _, [] => []
  | i, d :: ds => d.setup (cid, i) :: setupGo cid (i + 1) ds

/-- setup(context): if the context is expired, rebuild its sub-contexts
(one per adapter), register them with the adapters, and stamp the context
with the current identity. -/
def setup (s : DxgiDuplicatorController) (context : Context) :
    DxgiDuplicatorController × Context :=
  if s.contextExpired context then
    ({ s with duplicators := setupGo context.cid 0 s.duplicators },
     { context with sub_context_count := s.duplicators.length,
                    controller_id := s.identity })
  else (s, context)

/-- Unregistration pass of unregister(context). -/
def unregGo (cid : Nat) : Nat → List DxgiAdapterDuplicator → List DxgiAdapterDuplicator
  | _, [] => []
  | i, d :: ds => d.unregister (cid, i) :: unregGo cid (i + 1) ds

/-- unregister(context): no-op for an expired context; otherwise forwards
the i-th sub-context to the i-th adapter.  The second component records
the (adapter index, sub-context handle) pairs actually forwarded. -/
def unregister (s : DxgiDuplicatorController) (context : Context) :
    DxgiDuplicatorController × List (Nat × (Nat × Nat)) :=
  if s.contextExpired context then (s, [])
  else
    ({ s with duplicators := unregGo context.cid 0 s.duplicators },
     (List.range s.duplicators.length).map (fun i => (i, (context.cid, i))))

/-- Loop of doDuplicateAll: call each adapter's duplicate in order,
short-circuiting on the first failure.  The environment supplies each
call's outcome; a missing outcome behaves as a failed call. -/
def dupAllGo : List DxgiAdapterDuplicator → List AdapterCallResult → Nat →
    Bool × List DxgiAdapterDuplicator × List DupOp
  | [], _, _ => (true, [], [])
  | d :: ds, calls, i =>
    let c := calls.headD ⟨false, 0⟩
    let d' := if c.ok then
        { d with num_frames_captured := d.num_frames_captured + c.frames_inc }
      else d
    if c.ok then
      let r := dupAllGo ds calls.tail (i + 1)
      (r.1, d' :: r.2.1, DupOp.dupFull i :: r.2.2)
    else
      (false, d' :: ds, [DupOp.dupFull i])

/-- doDuplicateAll(context, target): full virtual-desktop capture across
all adapters. -/
def doDuplicateAll (s : DxgiDuplicatorController) (_context : Context)
    (calls : List AdapterCallResult) :
    Bool × DxgiDuplicatorController × List DupOp :=
  let r := dupAllGo s.duplicators calls 0
  (r.1, { s with duplicators := r.2.1 }, r.2.2)

/-- Loop of doDuplicateOne: walk adapters while both the adapter index and
the sub-context index are in range, subtracting each adapter's monitor
count; inside the owning adapter, call its per-monitor duplicate and on
success set the target's top-left to the monitor's rectangle top-left. -/
def dupOneGo (call : AdapterCallResult) (target : SharedFrame) :
    List DxgiAdapterDuplicator → Nat → Int → Nat →
    Bool × List DxgiAdapterDuplicator × SharedFrame × List DupOp
  | [], _, _, _ => (false, [], target, [])
  | d :: ds, 0, _, _ => (false, d :: ds, target, [])
  | d :: ds, n + 1, monitor_id, i =>
    if monitor_id ≥ d.screenCount then
      let r := dupOneGo call target ds n (monitor_id - d.screenCount) (i + 1)
      (r.1, d :: r.2.1, r.2.2.1, r.2.2.2)
    else
      let d' := if call.ok then
          { d with num_frames_captured := d.num_frames_captured + call.frames_inc }
        else d
      if call.ok then
        (true, d' :: ds,
         { target with top_left := (d'.screenRect monitor_id).topLeft },
         [DupOp.dupMon i monitor_id])
      else (false, d' :: ds, target, [DupOp.dupMon i monitor_id])

/-- doDuplicateOne(context, monitor_id, target). -/
def doDuplicateOne (s : DxgiDuplicatorController) (context : Context)
    (monitor_id : Int) (target : SharedFrame) (call : AdapterCallResult) :
    Bool × DxgiDuplicatorController × SharedFrame × List DupOp :=
  let r := dupOneGo call target s.duplicators context.sub_context_count monitor_id 0
  (r.1, { s with duplicators := r.2.1 }, r.2.2.1, r.2.2.2)

/-- ms_per_frame in ensureFrameCaptured (the inter-frame sleep budget). -/
def msPerFrame : Int := 17

/-- frames_to_skip in ensureFrameCaptured. -/
def framesToSkip : Int := 1

/-- timeout_ms in ensureFrameCaptured. -/
def timeoutMs : Int := 500

/-- The while loop of ensureFrameCaptured.  Each iteration (sleep, which is
a semantic no-op here, then one doDuplicateAll pass, then the timeout
check) consumes one environment entry; an exhausted environment behaves
like the 500 ms timeout firing if more frames were still needed. -/
def warmupLoop (context : Context) :
    List WarmupIter → DxgiDuplicatorController →
    Bool × DxgiDuplicatorController × List DupOp
  | [], s => (decide (numFramesCaptured s ≥ framesToSkip), s, [])
  | it :: rest, s =>
    if numFramesCaptured s ≥ framesToSkip then (true, s, [])
    else
      let r := doDuplicateAll s context it.calls
      if !r.1 then (false, r.2.1, r.2.2)
      else if it.elapsed_after > timeoutMs then (false, r.2.1, r.2.2)
      else
        let r2 := warmupLoop context rest r.2.1
        (r2.1, r2.2.1, r.2.2 ++ r2.2.2)

/-- ensureFrameCaptured(context, target): returns true at once when every
adapter has already captured frames_to_skip frames; otherwise burns full
desktop frames.  Whether the caller's target or an allocated ARGB
desktop-sized fallback frame receives the warm-up pixels does not affect
control flow here, since pixel buffers are not modelled. -/
def ensureFrameCaptured (s : DxgiDuplicatorController) (context : Context)
    (_target_size : QSize) (iters : List WarmupIter) :
    Bool × DxgiDuplicatorController × List DupOp :=
  if numFramesCaptured s ≥ framesToSkip then (true, s, [])
  else warmupLoop context iters s

/-- Result of doDuplicateUnlocked. -/
structure UnlockedResult where
  ok : Bool
  state : DxgiDuplicatorController
  context : Context
  target : SharedFrame
  log : List DupOp
deriving Repr

/-- doDuplicateUnlocked(context, monitor_id, target): setup the context,
ensure warm-up, then dispatch to the full-desktop or single-monitor
capture. -/
def doDuplicateUnlocked (s : DxgiDuplicatorController) (context : Context)
    (monitor_id : Int) (target : SharedFrame) (env : DupEnv) : UnlockedResult :=
  let p := setup s context
  let e := ensureFrameCaptured p.1 p.2 target.size env.warmup
  if !e.1 then ⟨false, e.2.1, p.2, target, e.2.2⟩
  else if monitor_id < 0 then
    let r := doDuplicateAll e.2.1 p.2 env.final_all
    ⟨r.1, r.2.1, p.2, target, e.2.2 ++ r.2.2⟩
  else
    let r := doDuplicateOne e.2.1 p.2 monitor_id target env.final_one
    ⟨r.1, r.2.1, p.2, r.2.2.1, e.2.2 ++ r.2.2.2⟩

/-- The max-feature-level update of the enumeration loop. -/
def featUpdateMax (cur fl : Int) : Int := if cur = 0 ∨ fl > cur then fl else cur

/-- The min-feature-level update of the enumeration loop. -/
def featUpdateMin (cur fl : Int) : Int := if cur = 0 ∨ fl < cur then fl else cur

/-- One iteration of the device loop in the source's doInitialize: record
the feature level; if the adapter duplicator initializes, append it and
extend the desktop rectangle, else log and continue. -/
def initStep (s : DxgiDuplicatorController) (dev : D3dDevice) : DxgiDuplicatorController :=
  let s1 := { s with d3d_info :=
      ⟨featUpdateMin s.d3d_info.min_feature_level dev.feature_level,
       featUpdateMax s.d3d_info.max_feature_level dev.feature_level⟩ }
  if dev.init_ok then
    { s1 with duplicators := s1.duplicators ++ [dev.adapter],
              desktop_rect := s1.desktop_rect.united dev.adapter.desktop_rect }
  else s1

/-- translateRect() on the controller: shift the desktop rectangle so its
top-left is (0, 0) and instruct every adapter to shift by the same
offset. -/
def translateRect (s : DxgiDuplicatorController) : DxgiDuplicatorController :=
  let position : QPoint := ⟨0 - s.desktop_rect.topLeft.x, 0 - s.desktop_rect.topLeft.y⟩
  { s with desktop_rect := s.desktop_rect.translate position,
           duplicators := s.duplicators.map (fun d => d.translateRect position) }

/-- doInitialize() in the source.  Entered only with an empty desktop
rectangle and no adapters (the source's DCHECKs).  Resets the feature
levels, fails on empty enumeration, else runs the device loop, translates
the rectangles, stores the DPI when the query succeeds, increments the
identity, and succeeds iff some adapter initialized. -/
def doInitialise (s : DxgiDuplicatorController) (env : InitEnv) :
    Bool × DxgiDuplicatorController :=
  let s0 := { s with d3d_info := ⟨0, 0⟩ }
  if env.devices.isEmpty then (false, s0)
  else
    let s1 := env.devices.foldl initStep s0
    let s2 := translateRect s1
    let s3 := match env.dpi_query with
              | some p => { s2 with dpi := p }
              | none => s2
    let s4 := { s3 with identity := s3.identity + 1 }
    (!s4.duplicators.isEmpty, s4)

/-- initialize() in the source: succeed at once when adapters exist, else
attempt doInitialize and deinitialize on failure. -/
def initialise (s : DxgiDuplicatorController) (env : InitEnv) :
    Bool × DxgiDuplicatorController :=
  if !s.duplicators.isEmpty then (true, s)
  else
    let r := doInitialise s env
    if r.1 then (true, r.2) else (false, deinitialise r.2)

/-- The display-change poll at the top of doDuplicate: poll the probe once
and deinitialize when a change is reported. -/
def probeStep (s : DxgiDuplicatorController) (env : DupEnv) : DxgiDuplicatorController :=
  let c := s.display_configuration_monitor.isChanged env.current_screen_rect
  let s1 := { s with display_configuration_monitor := c.2 }
  if c.1 then deinitialise s1 else s1

/-- Result of doDuplicate. -/
structure DupResult where
  result : Result
  state : DxgiDuplicatorController
  frame : DxgiFrame
  log : List DupOp
deriving Repr

/-- doDuplicate(frame, monitor_id): the body of duplicate /
duplicateMonitor.  Frame preparation is the external DxgiFrame::prepare;
modelled from the spec, on success it sizes the frame to the requested
capture area.  The updated region is cleared before dispatch as in the
source. -/
def doDuplicate (s : DxgiDuplicatorController) (frame : DxgiFrame)
    (monitor_id : Int) (env : DupEnv) : DupResult :=
  let s1 := probeStep s env
  let ini := initialise s1 env.init
  if !ini.1 then
    if ini.2.succeeded_duplications == 0 && !env.session_ok then
      ⟨Result.UNSUPPORTED_SESSION, ini.2, frame, []⟩
    else
      ⟨Result.INITIALIZATION_FAILED, ini.2, frame, []⟩
  else
    let s2 := ini.2
    if !(env.prepare (selectedDesktopSize s2 monitor_id) monitor_id) then
      ⟨Result.FRAME_PREPARE_FAILED, s2, frame, []⟩
    else
      let frame1 : DxgiFrame :=
        { frame with frame := { frame.frame with
            size := selectedDesktopSize s2 monitor_id,
            updated_region := [] } }
      let u := doDuplicateUnlocked s2 frame1.context monitor_id frame1.frame env
      let frame2 : DxgiFrame := { frame1 with context := u.context, frame := u.target }
      if u.ok then
        ⟨Result.SUCCEEDED,
         { u.state with succeeded_duplications := u.state.succeeded_duplications + 1 },
         frame2, u.log⟩
      else if monitor_id ≥ screenCountUnlocked u.state then
        ⟨Result.INVALID_MONITOR_ID, u.state, frame2, u.log⟩
      else
        ⟨Result.DUPLICATION_FAILED, deinitialise u.state, frame2, u.log⟩

/-- duplicate(frame): full virtual-desktop capture. -/
def duplicate (s : DxgiDuplicatorController) (frame : DxgiFrame) (env : DupEnv) : DupResult :=
  doDuplicate s frame (-1) env

/-- duplicateMonitor(frame, monitor_id), monitor_id ≥ 0. -/
def duplicateMonitor (s : DxgiDuplicatorController) (frame : DxgiFrame)
    (monitor_id : Int) (env : DupEnv) : DupResult :=
  doDuplicate s frame monitor_id env

/-- unload(): forces deinitialization. -/
def unload (s : DxgiDuplicatorController) : DxgiDuplicatorController :=
  deinitialise s

end DxgiDuplicatorController

open DxgiDuplicatorController in
/-- The controller as first constructed: empty rectangle, no adapters,
identity 0, no successful duplications, zero DPI and feature levels, and a
cleared display probe. -/
def initialState : DxgiDuplicatorController :=
  ⟨⟨0, 0, 0, 0⟩, [], 0, 0, ⟨0, 0⟩, ⟨0, 0⟩, ⟨none⟩⟩

/-- One public operation of the controller, as a state transition with an
arbitrary environment. -/
inductive Step : DxgiDuplicatorController → DxgiDuplicatorController → Prop where
  | dup : ∀ s frame monitor_id env,
      Step s (DxgiDuplicatorController.doDuplicate s frame monitor_id env).state
  | unload_step : ∀ s, Step s (DxgiDuplicatorController.unload s)
  | unregister_step : ∀ s context,
      Step s (DxgiDuplicatorController.unregister s context).1
  | query : ∀ s env, Step s (DxgiDuplicatorController.initialise s env).2

/-- States the controller can reach from construction through any sequence
of public operations. -/
def Reachable (s : DxgiDuplicatorController) : Prop :=
  Relation.ReflTransGen Step initialState s

/-- The aggregation invariant: with no adapters the desktop rectangle is
the default QRect; with adapters it has top-left (0,0) and is the union of
the adapters' desktop rectangles. -/
def ControllerInv (s : DxgiDuplicatorController) : Prop :=
  (s.duplicators = [] → s.desktop_rect = ⟨0, 0, 0, 0⟩) ∧
  (s.duplicators ≠ [] →
    s.desktop_rect.topLeft = ⟨0, 0⟩ ∧
    s.desktop_rect = unionRects (s.duplicators.map DxgiAdapterDuplicator.desktop_rect))

/-- The flat-monitor-id resolution described by the spec: walk adapters in
order, subtracting each adapter's monitor count, until the id falls within
an adapter; return that adapter's index and the intra-adapter index. -/
def resolveMonitor : List DxgiAdapterDuplicator → Int → Option (Nat × Int)
  | [], _ => none
  | d :: ds, m =>
    if m ≥ d.screenCount then
      (resolveMonitor ds (m - d.screenCount)).map (fun q => (q.1 + 1, q.2))
    else some (0, m)

/-- Sum of the adapters' monitor counts, in recursive form. -/
def sumScreens : List DxgiAdapterDuplicator → Int
  | [] => 0
  | d :: ds => d.screenCount + sumScreens ds

/-- The adapters successfully initialized during one enumeration, before
any translation. -/
def initAdapters (env : InitEnv) : List DxgiAdapterDuplicator :=
  (env.devices.filter (fun d => d.init_ok)).map D3dDevice.adapter

/-- The translation offset computed by translateRect for one enumeration:
(0,0) minus the top-left of the union of the initialized adapters'
original desktop rectangles. -/
def initOffset (env : InitEnv) : QPoint :=
  ⟨0 - (unionRects (List.map DxgiAdapterDuplicator.desktop_rect (initAdapters env))).x,
   0 - (unionRects (List.map DxgiAdapterDuplicator.desktop_rect (initAdapters env))).y⟩

/-- The geometric content of an adapter: its rectangles, without the
capture counter and the registration bookkeeping. -/
def adapterShape (d : DxgiAdapterDuplicator) : QRect × List QRect :=
  (d.desktop_rect, d.screen_rects)

/-! ### Rectangle algebra -/

theorem QRect.isNull_translate (r : QRect) (p : QPoint) :
    (r.translate p).isNull = r.isNull := rfl

theorem QRect.united_translate (a b : QRect) (p : QPoint) :
    (a.united b).translate p = (a.translate p).united (b.translate p) := by
  by_cases ha : a.isNull
  · simp [QRect.united, ha, QRect.isNull_translate]
  · by_cases hb : b.isNull
    · simp [QRect.united, ha, hb, QRect.isNull_translate]
    · simp only [QRect.united, QRect.isNull_translate, ha, hb, if_false,
        Bool.false_eq_true]
      simp only [QRect.translate, QRect.mk.injEq]
      refine ⟨?_, ?_, ?_, ?_⟩ <;> omega

theorem foldl_united_translate (l : List QRect) (r : QRect) (p : QPoint) :
    (l.foldl QRect.united r).translate p
      = (l.map (fun q => q.translate p)).foldl QRect.united (r.translate p) := by
  induction l generalizing r with
  | nil => rfl
  | cons x xs ih =>
    simp only [List.foldl_cons, List.map_cons, ih, QRect.united_translate]

theorem foldl_united_null_congr (l : List QRect) (r₁ r₂ : QRect)
    (h₁ : r₁.isNull = true) (h₂ : r₂.isNull = true) (hne : l ≠ []) :
    l.foldl QRect.united r₁ = l.foldl QRect.united r₂ := by
  cases l with
  | nil => exact absurd rfl hne
  | cons x xs =>
    have e1 : QRect.united r₁ x = x := by simp [QRect.united, h₁]
    have e2 : QRect.united r₂ x = x := by simp [QRect.united, h₂]
    simp only [List.foldl_cons, e1, e2]

namespace DxgiDuplicatorController

/-! ### Projection lemmas for the initialization loop -/

theorem initStep_duplicators (s : DxgiDuplicatorController) (dev : D3dDevice) :
    (initStep s dev).duplicators
      = s.duplicators ++ (if dev.init_ok then [dev.adapter] else []) := by
  simp only [initStep]
  split <;> simp

theorem initStep_desktop (s : DxgiDuplicatorController) (dev : D3dDevice) :
    (initStep s dev).desktop_rect
      = (if dev.init_ok then s.desktop_rect.united dev.adapter.desktop_rect
         else s.desktop_rect) := by
  simp only [initStep]
  split <;> simp

theorem initStep_identity (s : DxgiDuplicatorController) (dev : D3dDevice) :
    (initStep s dev).identity = s.identity := by
  simp only [initStep]
  split <;> rfl

theorem initStep_succ (s : DxgiDuplicatorController) (dev : D3dDevice) :
    (initStep s dev).succeeded_duplications = s.succeeded_duplications := by
  simp only [initStep]
  split <;> rfl

theorem initStep_dpi (s : DxgiDuplicatorController) (dev : D3dDevice) :
    (initStep s dev).dpi = s.dpi := by
  simp only [initStep]
  split <;> rfl

theorem initStep_monitor (s : DxgiDuplicatorController) (dev : D3dDevice) :
    (initStep s dev).display_configuration_monitor
      = s.display_configuration_monitor := by
  simp only [initStep]
  split <;> rfl

theorem initStep_d3d (s : DxgiDuplicatorController) (dev : D3dDevice) :
    (initStep s dev).d3d_info
      = ⟨featUpdateMin s.d3d_info.min_feature_level dev.feature_level,
         featUpdateMax s.d3d_info.max_feature_level dev.feature_level⟩ := by
  simp only [initStep]
  split <;> rfl

theorem foldl_initStep_duplicators (l : List D3dDevice) (s : DxgiDuplicatorController) :
    (l.foldl initStep s).duplicators
      = s.duplicators ++ (l.filter (fun d => d.init_ok)).map D3dDevice.adapter := by
  induction l generalizing s with
  | nil => simp
  | cons d ds ih =>
    by_cases h : d.init_ok
    · simp [List.foldl_cons, ih, initStep_duplicators, h, List.filter_cons]
    · simp [List.foldl_cons, ih, initStep_duplicators, h, List.filter_cons]

theorem foldl_initStep_desktop (l : List D3dDevice) (s : DxgiDuplicatorController) :
    (l.foldl initStep s).desktop_rect
      = ((l.filter (fun d => d.init_ok)).map (fun d => d.adapter.desktop_rect)).foldl
          QRect.united s.desktop_rect := by
  induction l generalizing s with
  | nil => simp
  | cons d ds ih =>
    by_cases h : d.init_ok
    · simp [List.foldl_cons, ih, initStep_desktop, h, List.filter_cons]
    · simp [List.foldl_cons, ih, initStep_desktop, h, List.filter_cons]

theorem foldl_initStep_identity (l : List D3dDevice) (s : DxgiDuplicatorController) :
    (l.foldl initStep s).identity = s.identity := by
  induction l generalizing s with
  | nil => rfl
  | cons d ds ih => rw [List.foldl_cons, ih, initStep_identity]

theorem foldl_initStep_succ (l : List D3dDevice) (s : DxgiDuplicatorController) :
    (l.foldl initStep s).succeeded_duplications = s.succeeded_duplications := by
  induction l generalizing s with
  | nil => rfl
  | cons d ds ih => rw [List.foldl_cons, ih, initStep_succ]

theorem foldl_initStep_dpi (l : List D3dDevice) (s : DxgiDuplicatorController) :
    (l.foldl initStep s).dpi = s.dpi := by
  induction l generalizing s with
  | nil => rfl
  | cons d ds ih => rw [List.foldl_cons, ih, initStep_dpi]

theorem foldl_initStep_monitor (l : List D3dDevice) (s : DxgiDuplicatorController) :
    (l.foldl initStep s).display_configuration_monitor
      = s.display_configuration_monitor := by
  induction l generalizing s with
  | nil => rfl
  | cons d ds ih => rw [List.foldl_cons, ih, initStep_monitor]

theorem foldl_initStep_d3d (l : List D3dDevice) (s : DxgiDuplicatorController) :
    (l.foldl initStep s).d3d_info
      = l.foldl (fun info dev =>
          ⟨featUpdateMin info.min_feature_level dev.feature_level,
           featUpdateMax info.max_feature_level dev.feature_level⟩) s.d3d_info := by
  induction l generalizing s with
  | nil => rfl
  | cons d ds ih => rw [List.foldl_cons, ih, initStep_d3d, List.foldl_cons]

/-! ### Projection lemmas for translateRect -/

theorem translateRect_desktop (s : DxgiDuplicatorController) :
    (translateRect s).desktop_rect
      = s.desktop_rect.translate ⟨0 - s.desktop_rect.x, 0 - s.desktop_rect.y⟩ := rfl

theorem translateRect_duplicators (s : DxgiDuplicatorController) :
    (translateRect s).duplicators
      = s.duplicators.map
          (fun d => d.translateRect ⟨0 - s.desktop_rect.x, 0 - s.desktop_rect.y⟩) := rfl

theorem translateRect_identity (s : DxgiDuplicatorController) :
    (translateRect s).identity = s.identity := rfl

theorem translateRect_succ (s : DxgiDuplicatorController) :
    (translateRect s).succeeded_duplications = s.succeeded_duplications := rfl

theorem translateRect_dpi (s : DxgiDuplicatorController) :
    (translateRect s).dpi = s.dpi := rfl

theorem translateRect_monitor (s : DxgiDuplicatorController) :
    (translateRect s).display_configuration_monitor
      = s.display_configuration_monitor := rfl

theorem translateRect_d3d (s : DxgiDuplicatorController) :
    (translateRect s).d3d_info = s.d3d_info := rfl

theorem adapter_translateRect_desktop (d : DxgiAdapterDuplicator) (p : QPoint) :
    (d.translateRect p).desktop_rect = d.desktop_rect.translate p := rfl

/-! ### deinitialize, probe and initialize projections -/

theorem deinitialise_fields (s : DxgiDuplicatorController) :
    (deinitialise s).identity = s.identity ∧
    (deinitialise s).succeeded_duplications = s.succeeded_duplications ∧
    (deinitialise s).dpi = s.dpi ∧
    (deinitialise s).d3d_info = s.d3d_info ∧
    (deinitialise s).duplicators = [] ∧
    (deinitialise s).desktop_rect = ⟨0, 0, 0, 0⟩ ∧
    (deinitialise s).display_configuration_monitor = ⟨none⟩ :=
  ⟨rfl, rfl, rfl, rfl, rfl, rfl, rfl⟩

theorem probeStep_succ (s : DxgiDuplicatorController) (env : DupEnv) :
    (probeStep s env).succeeded_duplications = s.succeeded_duplications := by
  simp only [probeStep]
  split <;> rfl

theorem probeStep_of_not_changed (s : DxgiDuplicatorController) (env : DupEnv)
    (h : (s.display_configuration_monitor.isChanged env.current_screen_rect).1 = false) :
    probeStep s env
      = { s with display_configuration_monitor :=
            (s.display_configuration_monitor.isChanged env.current_screen_rect).2 } := by
  simp only [probeStep, h]
  simp

theorem doInitialise_succ (s : DxgiDuplicatorController) (env : InitEnv) :
    (doInitialise s env).2.succeeded_duplications = s.succeeded_duplications := by
  simp only [doInitialise]
  split
  · rfl
  · cases env.dpi_query <;> simp [foldl_initStep_succ, translateRect_succ]

theorem doInitialise_monitor (s : DxgiDuplicatorController) (env : InitEnv) :
    (doInitialise s env).2.display_configuration_monitor
      = s.display_configuration_monitor := by
  simp only [doInitialise]
  split
  · rfl
  · cases env.dpi_query <;> simp [foldl_initStep_monitor, translateRect_monitor]

theorem doInitialise_identity_ne (s : DxgiDuplicatorController) (env : InitEnv)
    (h : env.devices.isEmpty = false) :
    (doInitialise s env).2.identity = s.identity + 1 := by
  simp only [doInitialise, h]
  cases env.dpi_query <;> simp [foldl_initStep_identity, translateRect_identity]

theorem doInitialise_d3d_ne (s : DxgiDuplicatorController) (env : InitEnv)
    (h : env.devices.isEmpty = false) :
    (doInitialise s env).2.d3d_info
      = env.devices.foldl (fun info dev =>
          ⟨featUpdateMin info.min_feature_level dev.feature_level,
           featUpdateMax info.max_feature_level dev.feature_level⟩) ⟨0, 0⟩ := by
  simp only [doInitialise, h]
  cases env.dpi_query <;> simp [foldl_initStep_d3d, translateRect_d3d]

theorem doInitialise_duplicators (s : DxgiDuplicatorController) (env : InitEnv)
    (h : env.devices.isEmpty = false) :
    (doInitialise s env).2.duplicators
      = (s.duplicators ++ initAdapters env).map
          (fun d => d.translateRect
            ⟨0 - (env.devices.foldl initStep { s with d3d_info := ⟨0, 0⟩ }).desktop_rect.x,
             0 - (env.devices.foldl initStep { s with d3d_info := ⟨0, 0⟩ }).desktop_rect.y⟩) := by
  simp only [doInitialise, h]
  cases env.dpi_query <;>
    simp [translateRect_duplicators, foldl_initStep_duplicators, initAdapters]

theorem doInitialise_desktop (s : DxgiDuplicatorController) (env : InitEnv)
    (h : env.devices.isEmpty = false) :
    (doInitialise s env).2.desktop_rect
      = (env.devices.foldl initStep { s with d3d_info := ⟨0, 0⟩ }).desktop_rect.translate
          ⟨0 - (env.devices.foldl initStep { s with d3d_info := ⟨0, 0⟩ }).desktop_rect.x,
           0 - (env.devices.foldl initStep { s with d3d_info := ⟨0, 0⟩ }).desktop_rect.y⟩ := by
  simp only [doInitialise, h]
  cases env.dpi_query <;> simp [translateRect_desktop]

theorem foldl_desktop_clean (s : DxgiDuplicatorController) (env : InitEnv)
    (hrect : s.desktop_rect = ⟨0, 0, 0, 0⟩) :
    (env.devices.foldl initStep { s with d3d_info := ⟨0, 0⟩ }).desktop_rect
      = unionRects (List.map DxgiAdapterDuplicator.desktop_rect (initAdapters env)) := by
  rw [foldl_initStep_desktop]
  have hb : ({ s with d3d_info := (⟨0, 0⟩ : D3dInfo) } : DxgiDuplicatorController).desktop_rect
      = (⟨0, 0, 0, 0⟩ : QRect) := hrect
  rw [hb, initAdapters, List.map_map, unionRects]
  rfl

theorem initialise_not_empty (s : DxgiDuplicatorController) (env : InitEnv)
    (h : s.duplicators ≠ []) : initialise s env = (true, s) := by
  have : s.duplicators.isEmpty = false := by
    cases hd : s.duplicators with
    | nil => exact absurd hd h
    | cons a l => rfl
  simp [initialise, this]

theorem initialise_succ (s : DxgiDuplicatorController) (env : InitEnv) :
    (initialise s env).2.succeeded_duplications = s.succeeded_duplications := by
  simp only [initialise]
  split
  · rfl
  · split
    · exact doInitialise_succ s env
    · show (deinitialise (doInitialise s env).2).succeeded_duplications = _
      rw [(deinitialise_fields _).2.1, doInitialise_succ]

/-! ### Shape preservation through capture operations -/

theorem setup_shape (d : DxgiAdapterDuplicator) (h : Nat × Nat) :
    adapterShape (d.setup h) = adapterShape d := rfl

theorem unregister_shape (d : DxgiAdapterDuplicator) (h : Nat × Nat) :
    adapterShape (d.unregister h) = adapterShape d := rfl

theorem setupGo_shape (cid : Nat) :
    ∀ (i : Nat) (ds : List DxgiAdapterDuplicator),
      (setupGo cid i ds).map adapterShape = ds.map adapterShape := by
  intro i ds
  induction ds generalizing i with
  | nil => rfl
  | cons d t ih => simp [setupGo, ih, setup_shape]

theorem unregGo_shape (cid : Nat) :
    ∀ (i : Nat) (ds : List DxgiAdapterDuplicator),
      (unregGo cid i ds).map adapterShape = ds.map adapterShape := by
  intro i ds
  induction ds generalizing i with
  | nil => rfl
  | cons d t ih => simp [unregGo, ih, unregister_shape]

theorem dupAllGo_shape :
    ∀ (ds : List DxgiAdapterDuplicator) (calls : List AdapterCallResult) (i : Nat),
      (dupAllGo ds calls i).2.1.map adapterShape = ds.map adapterShape := by
  intro ds
  induction ds with
  | nil => intro calls i; rfl
  | cons d t ih =>
    intro calls i
    cases calls with
    | nil => simp [dupAllGo, adapterShape]
    | cons c cs =>
      simp only [dupAllGo, List.headD_cons, List.tail_cons]
      by_cases hc : c.ok
      · simp [hc, ih, adapterShape]
      · simp [hc, adapterShape]

theorem dupOneGo_shape (call : AdapterCallResult) (target : SharedFrame) :
    ∀ (ds : List DxgiAdapterDuplicator) (n : Nat) (m : Int) (i : Nat),
      (dupOneGo call target ds n m i).2.1.map adapterShape = ds.map adapterShape := by
  intro ds
  induction ds with
  | nil => intro n m i; rfl
  | cons d t ih =>
    intro n m i
    cases n with
    | zero => rfl
    | succ n =>
      simp only [dupOneGo]
      by_cases hm : m ≥ d.screenCount
      · simp [hm, ih]
      · by_cases hc : call.ok
        · simp [hm, hc, adapterShape]
        · simp [hm, hc, adapterShape]

/-- The fields of the controller preserved by every capture pass (only the
adapters' counters and registrations may change). -/
def PreservesCore (s s' : DxgiDuplicatorController) : Prop :=
  s'.duplicators.map adapterShape = s.duplicators.map adapterShape ∧
  s'.desktop_rect = s.desktop_rect ∧
  s'.identity = s.identity ∧
  s'.succeeded_duplications = s.succeeded_duplications ∧
  s'.dpi = s.dpi ∧
  s'.d3d_info = s.d3d_info ∧
  s'.display_configuration_monitor = s.display_configuration_monitor

theorem preservesCore_refl (s : DxgiDuplicatorController) : PreservesCore s s :=
  ⟨rfl, rfl, rfl, rfl, rfl, rfl, rfl⟩

theorem preservesCore_trans {a b c : DxgiDuplicatorController}
    (h1 : PreservesCore a b) (h2 : PreservesCore b c) : PreservesCore a c := by
  obtain ⟨a1, a2, a3, a4, a5, a6, a7⟩ := h1
  obtain ⟨b1, b2, b3, b4, b5, b6, b7⟩ := h2
  exact ⟨b1.trans a1, b2.trans a2, b3.trans a3, b4.trans a4, b5.trans a5,
    b6.trans a6, b7.trans a7⟩

theorem doDuplicateAll_core (s : DxgiDuplicatorController) (ctx : Context)
    (calls : List AdapterCallResult) :
    PreservesCore s (doDuplicateAll s ctx calls).2.1 := by
  refine ⟨?_, rfl, rfl, rfl, rfl, rfl, rfl⟩
  simp [doDuplicateAll, dupAllGo_shape]

theorem doDuplicateOne_core (s : DxgiDuplicatorController) (ctx : Context)
    (monitor_id : Int) (target : SharedFrame) (call : AdapterCallResult) :
    PreservesCore s (doDuplicateOne s ctx monitor_id target call).2.1 := by
  refine ⟨?_, rfl, rfl, rfl, rfl, rfl, rfl⟩
  simp [doDuplicateOne, dupOneGo_shape]

theorem setup_core (s : DxgiDuplicatorController) (ctx : Context) :
    PreservesCore s (setup s ctx).1 := by
  simp only [setup]
  split
  · exact ⟨setupGo_shape _ _ _, rfl, rfl, rfl, rfl, rfl, rfl⟩
  · exact preservesCore_refl s

theorem warmupLoop_core (ctx : Context) :
    ∀ (iters : List WarmupIter) (s : DxgiDuplicatorController),
      PreservesCore s (warmupLoop ctx iters s).2.1 := by
  intro iters
  induction iters with
  | nil => intro s; exact preservesCore_refl s
  | cons it rest ih =>
    intro s
    simp only [warmupLoop]
    by_cases h1 : numFramesCaptured s ≥ framesToSkip
    · simp only [h1, if_true]
      exact preservesCore_refl s
    · simp only [h1, if_false]
      by_cases h2 : (doDuplicateAll s ctx it.calls).1
      · by_cases h3 : it.elapsed_after > timeoutMs
        · simp only [h2, h3, Bool.not_true, Bool.false_eq_true, if_false, if_true]
          exact doDuplicateAll_core s ctx it.calls
        · simp only [h2, h3, Bool.not_true, Bool.false_eq_true, if_false]
          exact preservesCore_trans (doDuplicateAll_core s ctx it.calls)
            (ih (doDuplicateAll s ctx it.calls).2.1)
      · simp only [Bool.not_eq_true] at h2
        simp only [h2, Bool.not_false, if_true]
        exact doDuplicateAll_core s ctx it.calls

theorem ensureFrameCaptured_core (s : DxgiDuplicatorController) (ctx : Context)
    (ts : QSize) (iters : List WarmupIter) :
    PreservesCore s (ensureFrameCaptured s ctx ts iters).2.1 := by
  simp only [ensureFrameCaptured]
  split
  · exact preservesCore_refl s
  · exact warmupLoop_core ctx iters s

/-! ### Screen-count arithmetic -/

theorem screenCount_of_shape {d d' : DxgiAdapterDuplicator}
    (h : adapterShape d = adapterShape d') : d.screenCount = d'.screenCount := by
  unfold DxgiAdapterDuplicator.screenCount
  rw [show d.screen_rects = d'.screen_rects from congrArg Prod.snd h]

theorem sumScreens_of_shape :
    ∀ (ds ds' : List DxgiAdapterDuplicator),
      ds.map adapterShape = ds'.map adapterShape → sumScreens ds = sumScreens ds' := by
  intro ds
  induction ds with
  | nil =>
    intro ds' h
    cases ds' with
    | nil => rfl
    | cons a l => simp at h
  | cons d t ih =>
    intro ds' h
    cases ds' with
    | nil => simp at h
    | cons d' t' =>
      simp only [List.map_cons, List.cons.injEq] at h
      simp [sumScreens, screenCount_of_shape h.1, ih t' h.2]

theorem screenCountUnlocked_eq_sum (s : DxgiDuplicatorController) :
    screenCountUnlocked s = sumScreens s.duplicators := by
  unfold screenCountUnlocked
  have key : ∀ (ds : List DxgiAdapterDuplicator) (a : Int),
      ds.foldl (fun acc d => acc + d.screenCount) a = a + sumScreens ds := by
    intro ds
    induction ds with
    | nil => intro a; simp [sumScreens]
    | cons d t ih => intro a; simp only [List.foldl_cons, ih, sumScreens]; ring
  simpa using key s.duplicators 0

theorem sumScreens_nonneg : ∀ ds : List DxgiAdapterDuplicator, 0 ≤ sumScreens ds := by
  intro ds
  induction ds with
  | nil => exact le_refl 0
  | cons d t ih =>
    simp only [sumScreens]
    have : (0 : Int) ≤ d.screenCount := Int.ofNat_nonneg _
    omega

theorem screenCount_nonneg (d : DxgiAdapterDuplicator) : 0 ≤ d.screenCount :=
  Int.ofNat_nonneg _

/-! ### Out-of-range walks -/

theorem screenRectWalk_out :
    ∀ (ds : List DxgiAdapterDuplicator) (m : Int), sumScreens ds ≤ m →
      screenRectWalk ds m = ⟨0, 0, 0, 0⟩ := by
  intro ds
  induction ds with
  | nil => intro m h; rfl
  | cons d t ih =>
    intro m h
    simp only [sumScreens] at h
    have h1 : 0 ≤ sumScreens t := sumScreens_nonneg t
    have h2 : d.screenCount ≤ m := by omega
    simp only [screenRectWalk, ge_iff_le, h2, if_true]
    exact ih (m - d.screenCount) (by omega)

theorem dupOneGo_out (call : AdapterCallResult) (target : SharedFrame) :
    ∀ (ds : List DxgiAdapterDuplicator) (n : Nat) (m : Int) (i : Nat),
      sumScreens ds ≤ m →
      dupOneGo call target ds n m i = (false, ds, target, []) := by
  intro ds
  induction ds with
  | nil =>
    intro n m i h
    cases n <;> rfl
  | cons d t ih =>
    intro n m i h
    simp only [sumScreens] at h
    have h1 : 0 ≤ sumScreens t := sumScreens_nonneg t
    have h2 : d.screenCount ≤ m := by omega
    cases n with
    | zero => rfl
    | succ n =>
      simp only [dupOneGo, ge_iff_le, h2, if_true]
      rw [ih n (m - d.screenCount) (i + 1) (by omega)]

/-! ### Warm-up logs contain only full-desktop duplications -/

theorem dupAllGo_log :
    ∀ (ds : List DxgiAdapterDuplicator) (calls : List AdapterCallResult) (i : Nat)
      (op : DupOp), op ∈ (dupAllGo ds calls i).2.2 → ∃ j, op = DupOp.dupFull j := by
  intro ds
  induction ds with
  | nil => intro calls i op h; simp [dupAllGo] at h
  | cons d t ih =>
    intro calls i op h
    cases calls with
    | nil =>
      simp only [dupAllGo, List.headD_nil] at h
      simp at h
      exact ⟨i, h⟩
    | cons c cs =>
      simp only [dupAllGo, List.headD_cons, List.tail_cons] at h
      by_cases hc : c.ok
      · simp only [hc, if_true, List.mem_cons] at h
        rcases h with h | h
        · exact ⟨i, h⟩
        · exact ih cs (i + 1) op h
      · simp only [hc, Bool.false_eq_true, if_false, List.mem_singleton] at h
        exact ⟨i, h⟩

theorem warmupLoop_log (ctx : Context) :
    ∀ (iters : List WarmupIter) (s : DxgiDuplicatorController) (op : DupOp),
      op ∈ (warmupLoop ctx iters s).2.2 → ∃ j, op = DupOp.dupFull j := by
  intro iters
  induction iters with
  | nil => intro s op h; simp [warmupLoop] at h
  | cons it rest ih =>
    intro s op h
    simp only [warmupLoop] at h
    by_cases h1 : numFramesCaptured s ≥ framesToSkip
    · simp [h1] at h
    · simp only [h1, if_false] at h
      by_cases h2 : (doDuplicateAll s ctx it.calls).1
      · by_cases h3 : it.elapsed_after > timeoutMs
        · simp only [h2, h3, Bool.not_true, Bool.false_eq_true, if_false, if_true] at h
          exact dupAllGo_log s.duplicators it.calls 0 op h
        · simp only [h2, h3, Bool.not_true, Bool.false_eq_true, if_false,
            List.mem_append] at h
          rcases h with h | h
          · exact dupAllGo_log s.duplicators it.calls 0 op h
          · exact ih (doDuplicateAll s ctx it.calls).2.1 op h
      · simp only [Bool.not_eq_true] at h2
        simp only [h2, Bool.not_false, if_true] at h
        exact dupAllGo_log s.duplicators it.calls 0 op h

theorem ensureFrameCaptured_log (s : DxgiDuplicatorController) (ctx : Context)
    (ts : QSize) (iters : List WarmupIter) (op : DupOp)
    (h : op ∈ (ensureFrameCaptured s ctx ts iters).2.2) : ∃ j, op = DupOp.dupFull j := by
  simp only [ensureFrameCaptured] at h
  by_cases h1 : numFramesCaptured s ≥ framesToSkip
  · simp [h1] at h
  · simp only [h1, if_false] at h
    exact warmupLoop_log ctx iters s op h

/-! ### Minimum of the capture counters -/

theorem foldl_min_le_start (l : List Int) (a : Int) : l.foldl min a ≤ a := by
  induction l generalizing a with
  | nil => exact le_refl a
  | cons x xs ih =>
    simp only [List.foldl_cons]
    exact le_trans (ih (min a x)) (min_le_left a x)

theorem foldl_min_le_mem (l : List Int) :
    ∀ (a x : Int), x ∈ l → l.foldl min a ≤ x := by
  induction l with
  | nil => intro a x hx; simp at hx
  | cons y ys ih =>
    intro a x hx
    simp only [List.mem_cons] at hx
    rcases hx with rfl | hx
    · exact le_trans (foldl_min_le_start ys (min a x)) (min_le_right a x)
    · exact ih (min a y) x hx

theorem foldl_min_mem_or (l : List Int) (a : Int) :
    l.foldl min a = a ∨ l.foldl min a ∈ l := by
  induction l generalizing a with
  | nil => exact Or.inl rfl
  | cons x xs ih =>
    simp only [List.foldl_cons]
    rcases ih (min a x) with h | h
    · rcases le_total a x with hax | hax
      · rw [h, min_eq_left hax]
        exact Or.inl rfl
      · rw [h, min_eq_right hax]
        exact Or.inr (List.mem_cons_self x xs)
    · exact Or.inr (List.mem_cons_of_mem x h)

theorem numFramesCaptured_eq_foldl (s : DxgiDuplicatorController) :
    numFramesCaptured s
      = (s.duplicators.map DxgiAdapterDuplicator.num_frames_captured).foldl min
          9223372036854775807 := by
  rw [numFramesCaptured, List.foldl_map]

theorem doDuplicateUnlocked_core (s : DxgiDuplicatorController) (ctx : Context)
    (monitor_id : Int) (target : SharedFrame) (env : DupEnv) :
    PreservesCore s (doDuplicateUnlocked s ctx monitor_id target env).state := by
  simp only [doDuplicateUnlocked]
  have hs := setup_core s ctx
  have he := ensureFrameCaptured_core (setup s ctx).1 (setup s ctx).2 target.size env.warmup
  have hse := preservesCore_trans hs he
  split
  · exact hse
  · split
    · refine preservesCore_trans hse ?_
      apply doDuplicateAll_core
      exact (setup s ctx).2
    · refine preservesCore_trans hse ?_
      apply doDuplicateOne_core

theorem unregister_core (s : DxgiDuplicatorController) (ctx : Context) :
    PreservesCore s (unregister s ctx).1 := by
  simp only [unregister]
  split
  · exact preservesCore_refl s
  · exact ⟨unregGo_shape _ _ _, rfl, rfl, rfl, rfl, rfl, rfl⟩

/-- A single-monitor duplication whose flat id lies beyond every adapter
fails without invoking any adapter's per-monitor duplicate. -/
theorem doDuplicateUnlocked_fail_out (s : DxgiDuplicatorController) (ctx : Context)
    (monitor_id : Int) (target : SharedFrame) (env : DupEnv)
    (h0 : 0 ≤ monitor_id) (hid : sumScreens s.duplicators ≤ monitor_id) :
    (doDuplicateUnlocked s ctx monitor_id target env).ok = false := by
  have hcore := preservesCore_trans (setup_core s ctx)
    (ensureFrameCaptured_core (setup s ctx).1 (setup s ctx).2 target.size env.warmup)
  have hsum : sumScreens (ensureFrameCaptured (setup s ctx).1 (setup s ctx).2
      target.size env.warmup).2.1.duplicators ≤ monitor_id := by
    rw [sumScreens_of_shape _ _ hcore.1]
    exact hid
  simp only [doDuplicateUnlocked]
  split
  · rfl
  · split
    · omega
    · dsimp only
      simp only [doDuplicateOne]
      rw [dupOneGo_out _ _ _ _ _ _ hsum]

/-- The walk of doDuplicateOne agrees with the flat-id resolution: for an
in-range id and a successful per-monitor call, it finds the owning
adapter, calls it with the remainder, sets the target's top-left to the
resolved monitor's rectangle top-left, and succeeds. -/
theorem dupOneGo_resolve (call : AdapterCallResult) (hok : call.ok = true)
    (target : SharedFrame) :
    ∀ (ds : List DxgiAdapterDuplicator) (n : Nat) (m : Int) (i : Nat),
      0 ≤ m → m < sumScreens ds → ds.length ≤ n →
      ∃ (j : Nat) (rem : Int) (d : DxgiAdapterDuplicator)
        (ds' : List DxgiAdapterDuplicator),
        resolveMonitor ds m = some (j, rem) ∧ ds.get? j = some d ∧
        dupOneGo call target ds n m i =
          (true, ds', { target with top_left := (d.screenRect rem).topLeft },
           [DupOp.dupMon (i + j) rem]) := by
  intro ds
  induction ds with
  | nil =>
    intro n m i h0 hlt hn
    simp only [sumScreens] at hlt
    omega
  | cons d t ih =>
    intro n m i h0 hlt hn
    cases n with
    | zero => simp at hn
    | succ n =>
      by_cases hm : m ≥ d.screenCount
      · have hlt' : m - d.screenCount < sumScreens t := by
          simp only [sumScreens] at hlt
          omega
        have h0' : 0 ≤ m - d.screenCount := by omega
        have hn' : t.length ≤ n := by
          simp only [List.length_cons] at hn
          omega
        obtain ⟨j, rem, dd, ds', e1, e2, e3⟩ := ih n (m - d.screenCount) (i + 1) h0' hlt' hn'
        refine ⟨j + 1, rem, dd, d :: ds', ?_, ?_, ?_⟩
        · simp [resolveMonitor, hm, e1]
        · simpa using e2
        · have harith : i + 1 + j = i + (j + 1) := by omega
          simp only [dupOneGo, hm, if_true, e3, harith]
      · have hm' : m < d.screenCount := lt_of_not_ge hm
        refine ⟨0, m, d, (if call.ok then
            { d with num_frames_captured := d.num_frames_captured + call.frames_inc }
          else d) :: t, ?_, rfl, ?_⟩
        · simp [resolveMonitor, hm]
        · simp only [dupOneGo, hm, if_false, hok, if_true]
          simp [DxgiAdapterDuplicator.screenRect]

/-- unregGo forwards, for each index i, the (cid, base + i) handle to the
i-th adapter of the list. -/
theorem unregGo_get (cid : Nat) :
    ∀ (j i : Nat) (ds : List DxgiAdapterDuplicator),
      (unregGo cid j ds).get? i
        = (ds.get? i).map (fun d => d.unregister (cid, j + i)) := by
  intro j i ds
  induction ds generalizing j i with
  | nil => simp [unregGo]
  | cons d t ih =>
    cases i with
    | zero => simp [unregGo]
    | succ i =>
      have harith : j + 1 + i = j + (i + 1) := by omega
      simp only [unregGo, List.get?_cons_succ, ih (j + 1) i, harith]

/-! ### The success shape of doInitialize -/

theorem doInitialise_fst (s : DxgiDuplicatorController) (env : InitEnv)
    (h : env.devices.isEmpty = false) :
    (doInitialise s env).1 = !(doInitialise s env).2.duplicators.isEmpty := by
  simp only [doInitialise, h]
  cases env.dpi_query <;> simp

theorem doInitialise_success_shape (s : DxgiDuplicatorController) (env : InitEnv)
    (hdup : s.duplicators = []) (hrect : s.desktop_rect = ⟨0, 0, 0, 0⟩)
    (hok : (doInitialise s env).1 = true) :
    (doInitialise s env).2.duplicators
        = (initAdapters env).map (fun d => d.translateRect (initOffset env)) ∧
    (doInitialise s env).2.desktop_rect
        = (unionRects (List.map DxgiAdapterDuplicator.desktop_rect
            (initAdapters env))).translate (initOffset env) ∧
    (doInitialise s env).2.desktop_rect.topLeft = ⟨0, 0⟩ ∧
    (doInitialise s env).2.desktop_rect
        = unionRects (List.map DxgiAdapterDuplicator.desktop_rect
            (doInitialise s env).2.duplicators) ∧
    (doInitialise s env).2.duplicators ≠ [] := by
  have hne : env.devices.isEmpty = false := by
    cases h : env.devices.isEmpty
    · rfl
    · simp [doInitialise, h] at hok
  have hu := foldl_desktop_clean s env hrect
  have hd := doInitialise_duplicators s env hne
  have hdesk := doInitialise_desktop s env hne
  rw [hu] at hd hdesk
  rw [hdup, List.nil_append] at hd
  have hd' : (doInitialise s env).2.duplicators
      = (initAdapters env).map (fun d => d.translateRect (initOffset env)) := hd
  have hdesk' : (doInitialise s env).2.desktop_rect
      = (unionRects (List.map DxgiAdapterDuplicator.desktop_rect
          (initAdapters env))).translate (initOffset env) := hdesk
  have hne' : (doInitialise s env).2.duplicators ≠ [] := by
    rw [doInitialise_fst s env hne] at hok
    intro he
    rw [he] at hok
    simp at hok
  have hads : initAdapters env ≠ [] := by
    intro he
    rw [he] at hd'
    simp at hd'
    exact hne' hd'
  refine ⟨hd', hdesk', ?_, ?_, hne'⟩
  · rw [hdesk']
    simp only [QRect.translate, QRect.topLeft, initOffset, QPoint.mk.injEq]
    omega
  · rw [hdesk', hd']
    have hmm : List.map DxgiAdapterDuplicator.desktop_rect
        ((initAdapters env).map (fun d => d.translateRect (initOffset env)))
        = (List.map DxgiAdapterDuplicator.desktop_rect (initAdapters env)).map
            (fun r => r.translate (initOffset env)) := by
      simp [List.map_map, adapter_translateRect_desktop]
    rw [hmm]
    have hrne : List.map DxgiAdapterDuplicator.desktop_rect (initAdapters env) ≠ [] := by
      intro he
      exact hads (List.map_eq_nil_iff.mp he)
    have hmapne : (List.map DxgiAdapterDuplicator.desktop_rect (initAdapters env)).map
        (fun r => r.translate (initOffset env)) ≠ [] := by
      intro he
      exact hrne (List.map_eq_nil_iff.mp he)
    have key : unionRects ((List.map DxgiAdapterDuplicator.desktop_rect
        (initAdapters env)).map (fun r => r.translate (initOffset env)))
        = (unionRects (List.map DxgiAdapterDuplicator.desktop_rect
            (initAdapters env))).translate (initOffset env) := by
      rw [unionRects, unionRects, foldl_united_translate]
      exact foldl_united_null_congr _ (⟨0, 0, 0, 0⟩ : QRect)
        ((⟨0, 0, 0, 0⟩ : QRect).translate (initOffset env)) rfl rfl hmapne
    rw [key]

/-! ### The aggregation invariant is inductive -/

theorem inv_initialState : ControllerInv initialState :=
  ⟨fun _ => rfl, fun h => absurd rfl h⟩

theorem inv_deinitialise (s : DxgiDuplicatorController) :
    ControllerInv (deinitialise s) :=
  ⟨fun _ => rfl, fun h => absurd rfl h⟩

theorem inv_of_core {s s' : DxgiDuplicatorController}
    (h : PreservesCore s s') (hinv : ControllerInv s) : ControllerInv s' := by
  obtain ⟨hshape, hdesk, _, _, _, _, _⟩ := h
  have hmap : s'.duplicators.map DxgiAdapterDuplicator.desktop_rect
      = s.duplicators.map DxgiAdapterDuplicator.desktop_rect := by
    have h2 := congrArg (List.map Prod.fst) hshape
    simpa [List.map_map] using h2
  have hlen : s'.duplicators.length = s.duplicators.length := by
    have h2 := congrArg List.length hshape
    simpa using h2
  constructor
  · intro he
    rw [hdesk]
    apply hinv.1
    rw [he] at hlen
    exact List.length_eq_zero.mp hlen.symm
  · intro hne
    have hne2 : s.duplicators ≠ [] := by
      intro he
      rw [he] at hlen
      simp only [List.length_nil] at hlen
      exact hne (List.length_eq_zero.mp hlen)
    obtain ⟨h1, h2⟩ := hinv.2 hne2
    exact ⟨hdesk ▸ h1, by rw [hdesk, hmap]; exact h2⟩

theorem inv_initialise (s : DxgiDuplicatorController) (env : InitEnv)
    (hinv : ControllerInv s) : ControllerInv (initialise s env).2 := by
  by_cases hd : s.duplicators = []
  · have hrect := hinv.1 hd
    have hde : s.duplicators.isEmpty = true := by simp [hd]
    simp only [initialise, hde, Bool.not_true, Bool.false_eq_true, if_false]
    by_cases hok : (doInitialise s env).1
    · simp only [hok, if_true]
      obtain ⟨c1, c2, c3, c4, c5⟩ := doInitialise_success_shape s env hd hrect hok
      exact ⟨fun he => absurd he c5, fun _ => ⟨c3, c4⟩⟩
    · simp only [Bool.not_eq_true] at hok
      simp only [hok, Bool.false_eq_true, if_false]
      exact inv_deinitialise _
  · rw [initialise_not_empty s env hd]
    exact hinv

theorem inv_probeStep (s : DxgiDuplicatorController) (env : DupEnv)
    (hinv : ControllerInv s) : ControllerInv (probeStep s env) := by
  simp only [probeStep]
  split
  · exact inv_deinitialise _
  · exact ⟨fun he => hinv.1 he, fun hne => hinv.2 hne⟩

theorem inv_doDuplicate (s : DxgiDuplicatorController) (frame : DxgiFrame)
    (monitor_id : Int) (env : DupEnv) (hinv : ControllerInv s) :
    ControllerInv (doDuplicate s frame monitor_id env).state := by
  have hini : ControllerInv (initialise (probeStep s env) env.init).2 :=
    inv_initialise _ _ (inv_probeStep s env hinv)
  simp only [doDuplicate]
  split
  · split
    · exact hini
    · exact hini
  · split
    · exact hini
    · split
      · have hcore := doDuplicateUnlocked_core (initialise (probeStep s env) env.init).2
          frame.context monitor_id
          { frame.frame with
              size := selectedDesktopSize (initialise (probeStep s env) env.init).2 monitor_id,
              updated_region := [] } env
        have h2 := inv_of_core hcore hini
        exact ⟨fun he => h2.1 he, fun hne => h2.2 hne⟩
      · split
        · have hcore := doDuplicateUnlocked_core (initialise (probeStep s env) env.init).2
            frame.context monitor_id
            { frame.frame with
                size := selectedDesktopSize (initialise (probeStep s env) env.init).2 monitor_id,
                updated_region := [] } env
          exact inv_of_core hcore hini
        · exact inv_deinitialise _

end DxgiDuplicatorController

theorem inv_step {s s' : DxgiDuplicatorController} (hs : Step s s')
    (hinv : ControllerInv s) : ControllerInv s' := by
  cases hs with
  | dup frame monitor_id env =>
    exact DxgiDuplicatorController.inv_doDuplicate s frame monitor_id env hinv
  | unload_step => exact DxgiDuplicatorController.inv_deinitialise s
  | unregister_step context =>
    exact DxgiDuplicatorController.inv_of_core
      (DxgiDuplicatorController.unregister_core s context) hinv
  | query env => exact DxgiDuplicatorController.inv_initialise s env hinv

theorem reachable_inv (s : DxgiDuplicatorController) (h : Reachable s) :
    ControllerInv s := by
  unfold Reachable at h
  induction h with
  | refl => exact DxgiDuplicatorController.inv_initialState
  | tail hab hbc ih => exact inv_step hbc ih

/-! ### Concrete fixtures for witnesses and counterexamples -/

def demoRect : QRect := ⟨0, 0, 1920, 1080⟩

/-- One adapter with a single already-warm monitor. -/
def demoAdapter : DxgiAdapterDuplicator :=
  ⟨demoRect, [demoRect], ["display1"], 5, []⟩

/-- An initialized controller owning demoAdapter. -/
def demoState : DxgiDuplicatorController :=
  ⟨demoRect, [demoAdapter], 1, 3, ⟨96, 96⟩, ⟨45056, 45312⟩, ⟨none⟩⟩

def demoContext : Context := ⟨7, 1, 1⟩

def demoFrame : DxgiFrame := ⟨demoContext, ⟨⟨1920, 1080⟩, ⟨0, 0⟩, []⟩⟩

def prepareAlways : QSize → Int → Bool := fun _ _ => true

def prepareNever : QSize → Int → Bool := fun _ _ => false

/-- A call on a session-0 process with an empty device enumeration. -/
def c1Env : DupEnv := ⟨demoRect, false, ⟨[], none⟩, prepareAlways, [], [], ⟨false, 0⟩⟩

/-- A call whose final full-desktop dispatch fails on the first adapter. -/
def c2Env : DupEnv :=
  ⟨demoRect, true, ⟨[], none⟩, prepareAlways, [], [⟨false, 0⟩], ⟨false, 0⟩⟩

/-! ### Claims -/

open DxgiDuplicatorController

/-- C1: whenever a duplicate / duplicateMonitor call fails to initialize,
the result is UnsupportedSession exactly when the count of successful
duplications at call entry is zero and the session probe denies
interactive-session rights; in every other initialization-failure case the
result is InitializationFailed, even if the session probe still denies. -/
theorem c1_unsupported_session_iff_first_attempt (s : DxgiDuplicatorController)
    (frame : DxgiFrame) (monitor_id : Int) (env : DupEnv)
    (hfail : (initialise (probeStep s env) env.init).1 = false) :
    ((doDuplicate s frame monitor_id env).result = Result.UNSUPPORTED_SESSION ↔
      (s.succeeded_duplications = 0 ∧ env.session_ok = false)) ∧
    (¬(s.succeeded_duplications = 0 ∧ env.session_ok = false) →
      (doDuplicate s frame monitor_id env).result = Result.INITIALIZATION_FAILED) := by
  have hsucc : (initialise (probeStep s env) env.init).2.succeeded_duplications
      = s.succeeded_duplications := by
    rw [initialise_succ, probeStep_succ]
  simp only [doDuplicate, hfail, Bool.not_false, if_true, hsucc]
  by_cases h0 : s.succeeded_duplications = 0 <;> by_cases hs : env.session_ok
  · simp [h0, hs]
  · simp [h0, hs]
  · simp [h0, hs]
  · simp [h0, hs]

/-- Witness for C1: a cold controller in session 0 with an empty device
enumeration reports UnsupportedSession. -/
theorem c1_witness :
    (initialise (probeStep initialState c1Env) c1Env.init).1 = false ∧
    (doDuplicate initialState demoFrame (-1) c1Env).result
      = Result.UNSUPPORTED_SESSION :=
  ⟨by decide,
   (c1_unsupported_session_iff_first_attempt initialState demoFrame (-1) c1Env
      (by decide)).1.mpr (by decide)⟩

/-- C2: every call that returns DuplicationFailed has deinitialized the
controller before returning: the adapters are gone, the desktop rectangle
is empty, and the display-change probe has been reset, so the next call
starts from initialize(). -/
theorem c2_duplication_failed_deinitialises (s : DxgiDuplicatorController)
    (frame : DxgiFrame) (monitor_id : Int) (env : DupEnv)
    (h : (doDuplicate s frame monitor_id env).result = Result.DUPLICATION_FAILED) :
    (doDuplicate s frame monitor_id env).state.duplicators = [] ∧
    (doDuplicate s frame monitor_id env).state.desktop_rect = ⟨0, 0, 0, 0⟩ ∧
    (doDuplicate s frame monitor_id env).state.display_configuration_monitor
      = ⟨none⟩ := by
  cases e : doDuplicate s frame monitor_id env with
  | mk res st fr log =>
    rw [e] at h
    dsimp only at h
    subst h
    simp only [doDuplicate] at e
    split at e
    · split at e <;> simp at e
    · split at e
      · simp at e
      · split at e
        · simp at e
        · split at e
          · simp at e
          · simp only [DupResult.mk.injEq] at e
            obtain ⟨-, e2, -, -⟩ := e
            rw [← e2]
            exact ⟨rfl, rfl, rfl⟩

/-- Witness for C2: a warm one-adapter controller whose full-desktop
dispatch fails returns DuplicationFailed with the adapters cleared. -/
theorem c2_witness :
    (doDuplicate demoState demoFrame (-1) c2Env).result = Result.DUPLICATION_FAILED ∧
    (doDuplicate demoState demoFrame (-1) c2Env).state.duplicators = [] :=
  ⟨by decide,
   (c2_duplication_failed_deinitialises demoState demoFrame (-1) c2Env (by decide)).1⟩

/-- A call with an out-of-range monitor id whose frame-prepare fails. -/
def c3Env : DupEnv := ⟨demoRect, true, ⟨[], none⟩, prepareNever, [], [], ⟨false, 0⟩⟩

/-- A call with an out-of-range monitor id whose frame-prepare succeeds. -/
def c3wEnv : DupEnv := ⟨demoRect, true, ⟨[], none⟩, prepareAlways, [], [], ⟨false, 0⟩⟩

/-- Counterexample to C3: on an initialized two-screen-free controller
(screen count 1) with monitor id 5, initialization succeeds and the id is
out of range, yet the call returns FramePreparationFailed, not
InvalidMonitorId, because the zero-sized frame-prepare is attempted first
and fails. -/
theorem c3_counterexample :
    (initialise (probeStep demoState c3Env) c3Env.init).1 = true ∧
    screenCountUnlocked demoState = 1 ∧
    (doDuplicate demoState demoFrame 5 c3Env).result = Result.FRAME_PREPARE_FAILED ∧
    (doDuplicate demoState demoFrame 5 c3Env).result ≠ Result.INVALID_MONITOR_ID := by
  decide

/-- C3 as amended: when no display change is observed, the controller is
already initialized, the monitor id is at least the screen count, and the
(zero-sized) frame-prepare succeeds, duplicateMonitor returns
InvalidMonitorId without deinitializing: identity, the desktop rectangle
and the adapters' geometry are unchanged (only per-adapter capture
counters and context registrations may advance). -/
theorem c3_invalid_monitor_id_amended (s : DxgiDuplicatorController)
    (frame : DxgiFrame) (monitor_id : Int) (env : DupEnv)
    (hne : s.duplicators ≠ [])
    (hprobe : (s.display_configuration_monitor.isChanged env.current_screen_rect).1
      = false)
    (h0 : 0 ≤ monitor_id)
    (hid : screenCountUnlocked s ≤ monitor_id)
    (hprep : env.prepare ⟨0, 0⟩ monitor_id = true) :
    (doDuplicate s frame monitor_id env).result = Result.INVALID_MONITOR_ID ∧
    (doDuplicate s frame monitor_id env).state.identity = s.identity ∧
    (doDuplicate s frame monitor_id env).state.desktop_rect = s.desktop_rect ∧
    (doDuplicate s frame monitor_id env).state.duplicators.map adapterShape
      = s.duplicators.map adapterShape := by
  have hP : probeStep s env
      = { s with display_configuration_monitor :=
            (s.display_configuration_monitor.isChanged env.current_screen_rect).2 } :=
    probeStep_of_not_changed s env hprobe
  have hPdup : (probeStep s env).duplicators = s.duplicators := by rw [hP]
  have hIni : initialise (probeStep s env) env.init = (true, probeStep s env) :=
    initialise_not_empty _ _ (by rw [hPdup]; exact hne)
  have hsum : sumScreens (probeStep s env).duplicators ≤ monitor_id := by
    rw [hPdup, ← screenCountUnlocked_eq_sum]
    exact hid
  have hsel : selectedDesktopSize (probeStep s env) monitor_id = ⟨0, 0⟩ := by
    rw [selectedDesktopSize, if_neg (not_lt.mpr h0), screenRect, hPdup,
      screenRectWalk_out s.duplicators monitor_id
        (by rw [← screenCountUnlocked_eq_sum]; exact hid)]
    rfl
  have hfailu := doDuplicateUnlocked_fail_out (probeStep s env) frame.context monitor_id
    { frame.frame with size := ⟨0, 0⟩, updated_region := [] } env h0 hsum
  have hcoreu := doDuplicateUnlocked_core (probeStep s env) frame.context monitor_id
    { frame.frame with size := ⟨0, 0⟩, updated_region := [] } env
  have hscr : monitor_id ≥ screenCountUnlocked
      (doDuplicateUnlocked (probeStep s env) frame.context monitor_id
        { frame.frame with size := ⟨0, 0⟩, updated_region := [] } env).state := by
    rw [screenCountUnlocked_eq_sum, sumScreens_of_shape _ _ hcoreu.1]
    exact hsum
  simp only [doDuplicate, hIni, hsel, hprep, Bool.not_true, Bool.false_eq_true,
    if_false]
  simp only [hfailu, Bool.false_eq_true, if_false, ge_iff_le, hscr, if_true]
  refine ⟨trivial, ?_, ?_, ?_⟩
  · rw [hcoreu.2.2.1, hP]
  · rw [hcoreu.2.1, hP]
  · rw [hcoreu.1, hP]

/-- Witness for C3 (amended): monitor id 5 against a one-screen controller
with a succeeding prepare yields InvalidMonitorId and keeps identity. -/
theorem c3_witness :
    (doDuplicate demoState demoFrame 5 c3wEnv).result = Result.INVALID_MONITOR_ID ∧
    (doDuplicate demoState demoFrame 5 c3wEnv).state.identity = demoState.identity :=
  ⟨(c3_invalid_monitor_id_amended demoState demoFrame 5 c3wEnv (by decide) (by decide)
      (by decide) (by decide) (by decide)).1,
   (c3_invalid_monitor_id_amended demoState demoFrame 5 c3wEnv (by decide) (by decide)
      (by decide) (by decide) (by decide)).2.1⟩

/-- A failed enumeration: one device whose adapter duplicator does not
initialize. -/
def c4InitEnv : InitEnv := ⟨[⟨5, false, demoAdapter⟩], none⟩

/-- Counterexample to C4: an initialization attempt with one enumerated
device whose adapter fails still increments identity (0 to 1) and leaves
the device's feature level recorded in the min/max fields instead of
cleaning them up. -/
theorem c4_counterexample :
    (initialise initialState c4InitEnv).1 = false ∧
    initialState.identity = 0 ∧
    (initialise initialState c4InitEnv).2.identity = 1 ∧
    (initialise initialState c4InitEnv).2.d3d_info = ⟨5, 5⟩ ∧
    ((1 : Int) ≠ 0 ∧ (⟨5, 5⟩ : D3dInfo) ≠ ⟨0, 0⟩) := by
  decide

/-- C4 as amended: when the enumeration is non-empty but no adapter
initializes, initialize deinitializes and fails — adapters and desktop
rectangle are empty and the probe is reset — but identity has been
incremented (it is bumped on every attempt that enumerates a device, not
only successful ones) and the feature-level fields keep the min/max levels
recorded from the enumerated devices. -/
theorem c4_failed_init_amended (s : DxgiDuplicatorController) (env : InitEnv)
    (hdup : s.duplicators = [])
    (hdev : env.devices ≠ [])
    (hfailall : ∀ d ∈ env.devices, d.init_ok = false) :
    (initialise s env).1 = false ∧
    (initialise s env).2.duplicators = [] ∧
    (initialise s env).2.desktop_rect = ⟨0, 0, 0, 0⟩ ∧
    (initialise s env).2.display_configuration_monitor = ⟨none⟩ ∧
    (initialise s env).2.identity = s.identity + 1 ∧
    (initialise s env).2.succeeded_duplications = s.succeeded_duplications ∧
    (initialise s env).2.d3d_info
      = env.devices.foldl (fun info dev =>
          ⟨featUpdateMin info.min_feature_level dev.feature_level,
           featUpdateMax info.max_feature_level dev.feature_level⟩) ⟨0, 0⟩ := by
  have hne : env.devices.isEmpty = false := by
    cases h : env.devices with
    | nil => exact absurd h hdev
    | cons a l => rfl
  have hads : initAdapters env = [] := by
    rw [initAdapters, List.filter_eq_nil_iff.mpr (by
      intro d hd
      rw [hfailall d hd]
      exact Bool.false_ne_true)]
    rfl
  have hfst : (doInitialise s env).1 = false := by
    rw [doInitialise_fst s env hne, doInitialise_duplicators s env hne, hdup, hads]
    rfl
  have hde : s.duplicators.isEmpty = true := by simp [hdup]
  have hini : initialise s env = (false, deinitialise (doInitialise s env).2) := by
    simp only [initialise, hde, Bool.not_true, Bool.false_eq_true, if_false, hfst]
  rw [hini]
  refine ⟨rfl, rfl, rfl, rfl, ?_, ?_, ?_⟩
  · show (doInitialise s env).2.identity = s.identity + 1
    exact doInitialise_identity_ne s env hne
  · show (doInitialise s env).2.succeeded_duplications = s.succeeded_duplications
    exact doInitialise_succ s env
  · show (doInitialise s env).2.d3d_info = _
    exact doInitialise_d3d_ne s env hne

/-- Witness for C4 (amended): the concrete failed enumeration leaves
empty adapters, identity 1 and feature levels 5/5. -/
theorem c4_witness :
    (initialise initialState c4InitEnv).1 = false ∧
    (initialise initialState c4InitEnv).2.identity = initialState.identity + 1 :=
  ⟨(c4_failed_init_amended initialState c4InitEnv (by decide) (by decide)
      (by decide)).1,
   (c4_failed_init_amended initialState c4InitEnv (by decide) (by decide)
      (by decide)).2.2.2.2.1⟩

/-- First adapter of the negative-origin scenario. -/
def s2AdapterA : DxgiAdapterDuplicator :=
  ⟨⟨-1920, 0, 1920, 1080⟩, [⟨-1920, 0, 1920, 1080⟩], ["d1"], 0, []⟩

/-- Second adapter of the negative-origin scenario. -/
def s2AdapterB : DxgiAdapterDuplicator :=
  ⟨⟨0, 0, 1920, 1080⟩, [⟨0, 0, 1920, 1080⟩], ["d2"], 0, []⟩

/-- Enumeration of the negative-origin scenario. -/
def c5InitEnv : InitEnv :=
  ⟨[⟨1, true, s2AdapterA⟩, ⟨2, true, s2AdapterB⟩], some ⟨96, 96⟩⟩

/-- C5: in every reachable state with adapters present, the desktop
rectangle has top-left (0,0) and is the union of the adapters' desktop
rectangles; moreover a successful initialization produces exactly the
initialized adapters translated by minus the original union's top-left,
with the desktop rectangle translated by the same offset. -/
theorem c5_desktop_rect_invariant :
    (∀ s : DxgiDuplicatorController, Reachable s → ControllerInv s) ∧
    (∀ (s : DxgiDuplicatorController) (env : InitEnv),
      s.duplicators = [] → s.desktop_rect = ⟨0, 0, 0, 0⟩ →
      (doInitialise s env).1 = true →
      (doInitialise s env).2.duplicators
          = (initAdapters env).map (fun d => d.translateRect (initOffset env)) ∧
      (doInitialise s env).2.desktop_rect
          = (unionRects (List.map DxgiAdapterDuplicator.desktop_rect
              (initAdapters env))).translate (initOffset env) ∧
      (doInitialise s env).2.desktop_rect.topLeft = ⟨0, 0⟩ ∧
      (doInitialise s env).2.desktop_rect
          = unionRects (List.map DxgiAdapterDuplicator.desktop_rect
              (doInitialise s env).2.duplicators)) := by
  refine ⟨reachable_inv, fun s env h1 h2 h3 => ?_⟩
  obtain ⟨a, b, c, d, -⟩ := doInitialise_success_shape s env h1 h2 h3
  exact ⟨a, b, c, d⟩

/-- Witness for C5: the fresh controller satisfies the invariant, and the
negative-origin enumeration yields a (0,0)-anchored 3840 by 1080 desktop. -/
theorem c5_witness :
    ControllerInv initialState ∧
    (doInitialise initialState c5InitEnv).2.desktop_rect.topLeft = ⟨0, 0⟩ ∧
    (doInitialise initialState c5InitEnv).2.desktop_rect = ⟨0, 0, 3840, 1080⟩ :=
  ⟨c5_desktop_rect_invariant.1 initialState Relation.ReflTransGen.refl,
   (c5_desktop_rect_invariant.2 initialState c5InitEnv (by decide) (by decide)
      (by decide)).2.2.1,
   by decide⟩

/-- C6: numFramesCaptured is the minimum across adapters of the captured
frame counts (not the sum); ensureFrameCaptured returns true at once,
changing nothing, when that minimum is at least frames_to_skip = 1; and
every adapter call it performs during warm-up is a full-desktop duplicate,
never a per-monitor one. -/
theorem c6_warmup_min_and_full_duplication :
    framesToSkip = 1 ∧
    (∀ s : DxgiDuplicatorController, s.duplicators ≠ [] →
      (∀ d ∈ s.duplicators, d.num_frames_captured ≤ 9223372036854775807) →
      (∃ d ∈ s.duplicators, numFramesCaptured s = d.num_frames_captured) ∧
      (∀ d ∈ s.duplicators, numFramesCaptured s ≤ d.num_frames_captured)) ∧
    (∀ (s : DxgiDuplicatorController) (context : Context) (ts : QSize)
      (iters : List WarmupIter), numFramesCaptured s ≥ framesToSkip →
      ensureFrameCaptured s context ts iters = (true, s, [])) ∧
    (∀ (s : DxgiDuplicatorController) (context : Context) (ts : QSize)
      (iters : List WarmupIter) (op : DupOp),
      op ∈ (ensureFrameCaptured s context ts iters).2.2 →
      ∃ i, op = DupOp.dupFull i) := by
  refine ⟨rfl, ?_, ?_, ?_⟩
  · intro s hne hb
    constructor
    · rcases foldl_min_mem_or
        (s.duplicators.map DxgiAdapterDuplicator.num_frames_captured)
        9223372036854775807 with h | h
      · obtain ⟨d, hd⟩ := List.exists_mem_of_ne_nil s.duplicators hne
        refine ⟨d, hd, ?_⟩
        have h1 := foldl_min_le_mem
          (s.duplicators.map DxgiAdapterDuplicator.num_frames_captured)
          9223372036854775807 d.num_frames_captured
          (List.mem_map_of_mem _ hd)
        have h2 := hb d hd
        rw [numFramesCaptured_eq_foldl]
        omega
      · obtain ⟨d, hd, he⟩ := List.mem_map.mp h
        refine ⟨d, hd, ?_⟩
        rw [numFramesCaptured_eq_foldl]
        exact he.symm
    · intro d hd
      rw [numFramesCaptured_eq_foldl]
      exact foldl_min_le_mem _ 9223372036854775807 d.num_frames_captured
        (List.mem_map_of_mem _ hd)
  · intro s context ts iters h
    unfold ensureFrameCaptured
    rw [if_pos h]
  · exact fun s context ts iters op h => ensureFrameCaptured_log s context ts iters op h

/-- Witness for C6: the warm one-adapter controller attains its minimum at
its adapter and skips the warm-up untouched. -/
theorem c6_witness :
    (∃ d ∈ demoState.duplicators,
      numFramesCaptured demoState = d.num_frames_captured) ∧
    ensureFrameCaptured demoState demoContext ⟨0, 0⟩ [] = (true, demoState, []) :=
  ⟨(c6_warmup_min_and_full_duplication.2.1 demoState (by decide) (by decide)).1,
   c6_warmup_min_and_full_duplication.2.2.1 demoState demoContext ⟨0, 0⟩ []
     (by decide)⟩

/-- One-monitor adapter for the resolution scenario. -/
def c7AdapterA : DxgiAdapterDuplicator :=
  ⟨⟨0, 0, 100, 100⟩, [⟨0, 0, 100, 100⟩], ["a"], 2, []⟩

/-- Two-monitor adapter for the resolution scenario. -/
def c7AdapterB : DxgiAdapterDuplicator :=
  ⟨⟨100, 0, 200, 100⟩, [⟨100, 0, 100, 100⟩, ⟨200, 0, 100, 100⟩], ["b1", "b2"], 2, []⟩

/-- A warm two-adapter, three-monitor controller. -/
def c7State : DxgiDuplicatorController :=
  ⟨⟨0, 0, 300, 100⟩, [c7AdapterA, c7AdapterB], 1, 0, ⟨96, 96⟩, ⟨1, 1⟩, ⟨none⟩⟩

def c7Context : Context := ⟨3, 1, 2⟩

def c7Target : SharedFrame := ⟨⟨300, 100⟩, ⟨0, 0⟩, []⟩

/-- C7: a single-monitor duplication with an in-range flat id resolves the
id by walking adapters in order and subtracting their screen counts,
invokes that adapter's per-monitor duplicate with the remainder, and on
success sets the frame's top-left to the monitor rectangle's top-left and
returns true. -/
theorem c7_monitor_resolution (s : DxgiDuplicatorController) (context : Context)
    (monitor_id : Int) (target : SharedFrame) (call : AdapterCallResult)
    (h0 : 0 ≤ monitor_id) (h1 : monitor_id < screenCountUnlocked s)
    (hc : context.sub_context_count = s.duplicators.length)
    (hok : call.ok = true) :
    ∃ (j : Nat) (rem : Int) (d : DxgiAdapterDuplicator)
      (ds' : List DxgiAdapterDuplicator),
      resolveMonitor s.duplicators monitor_id = some (j, rem) ∧
      s.duplicators.get? j = some d ∧
      doDuplicateOne s context monitor_id target call =
        (true, { s with duplicators := ds' },
         { target with top_left := (d.screenRect rem).topLeft },
         [DupOp.dupMon j rem]) := by
  have h1' : monitor_id < sumScreens s.duplicators := by
    rw [← screenCountUnlocked_eq_sum]
    exact h1
  obtain ⟨j, rem, d, ds', e1, e2, e3⟩ := dupOneGo_resolve call hok target s.duplicators
    context.sub_context_count monitor_id 0 h0 h1' (le_of_eq hc.symm)
  refine ⟨j, rem, d, ds', e1, e2, ?_⟩
  simp only [doDuplicateOne, e3, Nat.zero_add]

/-- Witness for C7: flat id 2 on a 1-monitor plus 2-monitor controller
resolves to adapter 1, intra-adapter monitor 1. -/
theorem c7_witness :
    ∃ (j : Nat) (rem : Int) (d : DxgiAdapterDuplicator)
      (ds' : List DxgiAdapterDuplicator),
      resolveMonitor c7State.duplicators 2 = some (j, rem) ∧
      c7State.duplicators.get? j = some d ∧
      doDuplicateOne c7State c7Context 2 c7Target ⟨true, 1⟩ =
        (true, { c7State with duplicators := ds' },
         { c7Target with top_left := (d.screenRect rem).topLeft },
         [DupOp.dupMon j rem]) :=
  c7_monitor_resolution c7State c7Context 2 c7Target ⟨true, 1⟩ (by decide) (by decide)
    (by decide) (by decide)

/-- C8: unregister is a no-op on an expired context (no sub-context is
forwarded and the controller state is untouched); on a current context it
forwards, for each adapter index i, the i-th sub-context to the i-th
adapter duplicator, touching nothing else. -/
theorem c8_unregister_expired_noop :
    (∀ (s : DxgiDuplicatorController) (context : Context),
      contextExpired s context = true → unregister s context = (s, [])) ∧
    (∀ (s : DxgiDuplicatorController) (context : Context),
      contextExpired s context = false →
      (unregister s context).2
          = (List.range s.duplicators.length).map (fun i => (i, (context.cid, i))) ∧
      (∀ i : Nat, (unregister s context).1.duplicators.get? i
          = (s.duplicators.get? i).map (fun d => d.unregister (context.cid, i))) ∧
      (unregister s context).1.desktop_rect = s.desktop_rect ∧
      (unregister s context).1.identity = s.identity ∧
      (unregister s context).1.succeeded_duplications = s.succeeded_duplications ∧
      (unregister s context).1.dpi = s.dpi ∧
      (unregister s context).1.d3d_info = s.d3d_info ∧
      (unregister s context).1.display_configuration_monitor
        = s.display_configuration_monitor) := by
  constructor
  · intro s context h
    simp [unregister, h]
  · intro s context h
    have hu : unregister s context
        = ({ s with duplicators := unregGo context.cid 0 s.duplicators },
           (List.range s.duplicators.length).map (fun i => (i, (context.cid, i)))) := by
      simp [unregister, h]
    rw [hu]
    refine ⟨rfl, ?_, rfl, rfl, rfl, rfl, rfl, rfl⟩
    intro i
    have hg := unregGo_get context.cid 0 i s.duplicators
    simpa using hg

/-- Witness for C8: a context stamped with a stale identity is expired and
unregister leaves the controller untouched. -/
theorem c8_witness :
    contextExpired demoState ⟨9, 99, 1⟩ = true ∧
    unregister demoState ⟨9, 99, 1⟩ = (demoState, []) :=
  ⟨by decide, c8_unregister_expired_noop.1 demoState ⟨9, 99, 1⟩ (by decide)⟩

/-- A call with an out-of-range monitor id whose zero-sized frame-prepare
fails. -/
def c10Env : DupEnv := ⟨demoRect, true, ⟨[], none⟩, prepareNever, [], [], ⟨false, 0⟩⟩

/-- C10: for an id at or beyond the screen count (adapters present),
screenRect returns the empty rectangle and selectedDesktopSize a zero
size, so the caller's frame is asked to prepare a zero-sized buffer before
the invalid id can be detected; InvalidMonitorId is reached only if that
zero-sized prepare succeeds, and a failing prepare yields
FramePreparationFailed instead. -/
theorem c10_zero_size_prepare_before_invalid_id (s : DxgiDuplicatorController)
    (frame : DxgiFrame) (monitor_id : Int) (env : DupEnv)
    (hne : s.duplicators ≠ [])
    (hprobe : (s.display_configuration_monitor.isChanged env.current_screen_rect).1
      = false)
    (h0 : 0 ≤ monitor_id)
    (hid : screenCountUnlocked s ≤ monitor_id) :
    screenRect s monitor_id = ⟨0, 0, 0, 0⟩ ∧
    selectedDesktopSize s monitor_id = ⟨0, 0⟩ ∧
    (env.prepare ⟨0, 0⟩ monitor_id = false →
      (doDuplicate s frame monitor_id env).result = Result.FRAME_PREPARE_FAILED) ∧
    ((doDuplicate s frame monitor_id env).result = Result.INVALID_MONITOR_ID →
      env.prepare ⟨0, 0⟩ monitor_id = true) := by
  have hwalk : screenRect s monitor_id = ⟨0, 0, 0, 0⟩ := by
    rw [screenRect, screenRectWalk_out s.duplicators monitor_id
      (by rw [← screenCountUnlocked_eq_sum]; exact hid)]
  have hsel : selectedDesktopSize s monitor_id = ⟨0, 0⟩ := by
    rw [selectedDesktopSize, if_neg (not_lt.mpr h0), hwalk]
    rfl
  have hP : probeStep s env
      = { s with display_configuration_monitor :=
            (s.display_configuration_monitor.isChanged env.current_screen_rect).2 } :=
    probeStep_of_not_changed s env hprobe
  have hPdup : (probeStep s env).duplicators = s.duplicators := by rw [hP]
  have hIni : initialise (probeStep s env) env.init = (true, probeStep s env) :=
    initialise_not_empty _ _ (by rw [hPdup]; exact hne)
  have hselP : selectedDesktopSize (probeStep s env) monitor_id = ⟨0, 0⟩ := by
    rw [selectedDesktopSize, if_neg (not_lt.mpr h0), screenRect, hPdup,
      screenRectWalk_out s.duplicators monitor_id
        (by rw [← screenCountUnlocked_eq_sum]; exact hid)]
    rfl
  have hPF : env.prepare ⟨0, 0⟩ monitor_id = false →
      (doDuplicate s frame monitor_id env).result = Result.FRAME_PREPARE_FAILED := by
    intro hp
    simp only [doDuplicate, hIni, hselP, hp, Bool.not_false, Bool.not_true, if_true]
    simp
  refine ⟨hwalk, hsel, hPF, ?_⟩
  intro hr
  cases hp : env.prepare ⟨0, 0⟩ monitor_id
  · rw [hPF hp] at hr
    exact absurd hr (by simp)
  · rfl

/-- Witness for C10: id 5 on the one-screen controller sees an empty
screen rectangle, and the failing zero-sized prepare turns the call into
FramePreparationFailed. -/
theorem c10_witness :
    screenRect demoState 5 = ⟨0, 0, 0, 0⟩ ∧
    (doDuplicate demoState demoFrame 5 c10Env).result
      = Result.FRAME_PREPARE_FAILED :=
  ⟨(c10_zero_size_prepare_before_invalid_id demoState demoFrame 5 c10Env (by decide)
      (by decide) (by decide) (by decide)).1,
   (c10_zero_size_prepare_before_invalid_id demoState demoFrame 5 c10Env (by decide)
      (by decide) (by decide) (by decide)).2.2.1 (by decide)⟩

/-- C9: deinitialize modifies only the desktop rectangle, the adapters
and the display-change probe; identity, the duplication counter, the DPI
and the recorded feature levels survive it, and unload is exactly
deinitialize. -/
theorem c9_deinitialise_frame (s : DxgiDuplicatorController) :
    (deinitialise s).identity = s.identity ∧
    (deinitialise s).succeeded_duplications = s.succeeded_duplications ∧
    (deinitialise s).dpi = s.dpi ∧
    (deinitialise s).d3d_info = s.d3d_info ∧
    (deinitialise s).duplicators = [] ∧
    (deinitialise s).desktop_rect = ⟨0, 0, 0, 0⟩ ∧
    (deinitialise s).display_configuration_monitor
      = s.display_configuration_monitor.reset ∧
    unload s = deinitialise s :=
  ⟨rfl, rfl, rfl, rfl, rfl, rfl, rfl, rfl⟩

end Aspia
